import Mathlib

/-
Verification of the Shield_EDR event pipeline: a shallow embedding of the
agent (src/edr_agent/agent.py) and the collector server (src/edr_server/app.py),
together with theorems settling the behavioral claims about retry/backoff,
monitor-loop resilience, ingestion validation and session lifecycle.
-/

namespace ShieldEDR

/-! ## Datetime values and ISO-8601 parsing

Python `datetime` values are modelled as a record of calendar fields.
The parsing performed by pydantic when a request body field is annotated
`timestamp: datetime` is library code outside src/, modelled here as an
executable parser of the basic ISO-8601 shape; what the claims need is only
the distinction between parsable and unparsable text. -/

/-- A parsed datetime value (model of a Python `datetime`). -/
structure DateTime where
  year : Nat
  month : Nat
  day : Nat
  hour : Nat
  minute : Nat
  second : Nat
deriving DecidableEq, Repr

/-- Value of a decimal digit character, none for a non-digit. -/
def digitVal (c : Char) : Option Nat :=
  if '0' ≤ c ∧ c ≤ '9' then some (c.toNat - '0'.toNat) else none

/-- Read a list of characters as a decimal number; none if any is a non-digit. -/
def digitsToNat : List Char → Option Nat
  | [] => some 0
  | c :: cs =>
    match digitVal c, digitsToNat cs with
    | some d, some r => some (d * 10 ^ cs.length + r)
    | _, _ => none

/-- Read exactly `len` decimal digits. -/
def parseFixed (l : List Char) (len : Nat) : Option Nat :=
  if l.length = len then digitsToNat l else none

/-- Split a character list on a separator character. -/
def splitOnChar (sep : Char) : List Char → List (List Char)
  | [] => [[]]
  | c :: cs =>
    let r := splitOnChar sep cs
    if c = sep then [] :: r
    else
      match r with
      | [] => [[c]]
      | g :: gs => (c :: g) :: gs

/-- Drop a single trailing Z suffix (UTC designator) if present. -/
def stripZ (l : List Char) : List Char :=
  match l.getLast? with
  | some c => if c = 'Z' then l.dropLast else l
  | none => l

/-- Parse the date-and-time character list YYYY-MM-DDTHH:MM:SS with optional
trailing Z; none on any malformed component. -/
def parseISOChars (l : List Char) : Option DateTime :=
  match splitOnChar 'T' (stripZ l) with
  | [d, t] =>
    match splitOnChar '-' d, splitOnChar ':' t with
    | [ys, mos, das], [hs, mis, ses] => do
      let y ← parseFixed ys 4
      let mo ← parseFixed mos 2
      let da ← parseFixed das 2
      let h ← parseFixed hs 2
      let mi ← parseFixed mis 2
      let se ← parseFixed ses 2
      if 1 ≤ mo ∧ mo ≤ 12 ∧ 1 ≤ da ∧ da ≤ 31 ∧ h < 24 ∧ mi < 60 ∧ se < 60 then
        some ⟨y, mo, da, h, mi, se⟩
      else none
    | _, _ => none
  | _ => none

/-- Modelled from the spec: pydantic parsing of an ISO-8601 `timestamp` text
into a datetime (the parsing library itself is not under src/). -/
def parseISO8601 (s : String) : Option DateTime :=
  parseISOChars s.data

/-! ## Collector server: validation, store, ingestion
(src/edr_server/app.py) -/

/-- Raw JSON body of a request to the collector, before validation: either
field may be absent, and the timestamp is still plain text. -/
structure RawPayload where
  event_type : Option String
  timestamp : Option String
deriving DecidableEq, Repr

/-- Model of pydantic EventCreate (src/edr_server/app.py lines 46-49): a plain
`str` field and a parsed `datetime` field. -/
structure EventCreate where
  event_type : String
  timestamp : DateTime
deriving DecidableEq, Repr

/-- Model of pydantic validation of a request body against EventCreate: a
missing field or unparsable datetime text is a validation failure (FastAPI
answers 422); a field annotated plain `str` accepts any string, the empty
string included. -/
def validatePayload (p : RawPayload) : Option EventCreate :=
  match p.event_type, p.timestamp with
  | some et, some ts =>
    match parseISO8601 ts with
    | some dt => some ⟨et, dt⟩
    | none => none
  | _, _ => none

/-- Model of the persisted Event row (src/edr_server/app.py lines 38-43):
integer primary key assigned by the database, event_type, timestamp. -/
structure StoredEvent where
  id : Nat
  event_type : String
  timestamp : DateTime
deriving DecidableEq, Repr

/-- The database state: an append-only events table together with the next
autoincrement primary-key value. -/
structure Store where
  nextId : Nat
  events : List StoredEvent
deriving DecidableEq, Repr

/-- Model of EventRepository.add_event (src/edr_server/app.py lines 64-69):
build a new Event row, add and commit it, refresh it (populating the assigned
id) and return it, together with the updated store. -/
def add_event (st : Store) (event_type : String) (timestamp : DateTime) :
    StoredEvent × Store :=
  (⟨st.nextId, event_type, timestamp⟩,
   ⟨st.nextId + 1, st.events ++ [⟨st.nextId, event_type, timestamp⟩]⟩)

/-- Response of the collector's POST /report route: 201 with a message body,
or a 422 validation rejection. -/
inductive IngestResponse where
  | created (message : String)
  | unprocessable
deriving DecidableEq, Repr

/-- Model of the collector's /report route (src/edr_server/app.py lines
86-90 and 101-104): pydantic validates the body into EventCreate; on success
create_event_endpoint adds the event through EventService and EventRepository
and returns the body with message "Event recorded" (the persisted row's id is
not returned); on validation failure FastAPI answers 422 and the endpoint body
never runs, so the store is untouched. -/
def ingest (st : Store) (p : RawPayload) : IngestResponse × Store :=
  match validatePayload p with
  | some ev => (.created "Event recorded", (add_event st ev.event_type ev.timestamp).2)
  | none => (.unprocessable, st)

/-! ## Agent: reporter with tenacity retry
(src/edr_agent/agent.py) -/

/-- Python exception values arising on the agent's delivery path.
httpException models fastapi HTTPException, httpStatusError models
httpx.HTTPStatusError (raised by raise_for_status on a non-2xx response),
retryError models tenacity.RetryError (it carries the last attempt's
exception — this is the error the spec names DeliveryFailed), and
cancelledError models asyncio.CancelledError. -/
inductive PyExn where
  | httpException (status : Nat) (detail : String)
  | httpStatusError (status : Nat)
  | retryError (last : PyExn)
  | cancelledError
deriving DecidableEq, Repr

/-- Python `isinstance(e, Exception)`: every exception here subclasses
Exception except asyncio.CancelledError, which subclasses BaseException
directly (Python ≥ 3.8). This predicate is exactly tenacity's default retry
condition retry_if_exception_type(Exception) and exactly what the monitor's
`except Exception` clause catches. -/
def PyExn.isException : PyExn → Bool
  | .cancelledError => false
  | _ => true

/-- The observable outcome of one httpx POST: a transport-level failure
(connection refused, timeout, DNS failure — httpx.RequestError), or an HTTP
response with a status code and body. -/
inductive HttpOutcome where
  | transportError (msg : String)
  | response (status : Nat) (body : String)
deriving DecidableEq, Repr

/-- The serialized event payload the agent posts: event_type plus
datetime.now().isoformat() sampled when the payload is built. -/
structure EventData where
  event_type : String
  timestamp : String
deriving DecidableEq, Repr

/-- Model of one execution of the body of report_event (src/edr_agent/agent.py
lines 30-46), the code the tenacity decorator re-executes on every attempt:
build event_data from the current clock reading, POST it; a transport error
(httpx.RequestError) is caught and re-raised as HTTPException(500, "Failed to
connect to server: ..."); a non-2xx response makes raise_for_status raise
httpx.HTTPStatusError, which the `except httpx.RequestError` clause does not
catch; a 2xx response returns the response body. Returns the payload built
and the attempt's outcome. -/
def report_attempt (event_type now : String) (transport : EventData → HttpOutcome) :
    EventData × Except PyExn String :=
  (⟨event_type, now⟩,
    match transport ⟨event_type, now⟩ with
    | .transportError m =>
        .error (.httpException 500 ("Failed to connect to server: " ++ m))
    | .response s b =>
        if 200 ≤ s ∧ s < 300 then .ok b else .error (.httpStatusError s))

/-- Model of tenacity wait_exponential(multiplier, min, max)
(tenacity/wait.py): the sleep after failed attempt number n is
max (max 0 min) (min (multiplier * 2 ^ (n - 1)) max); over Nat the outer
max 0 is the identity. -/
def wait_exponential (multiplier lo hi n : Nat) : Nat :=
  Nat.max lo (Nat.min (multiplier * 2 ^ (n - 1)) hi)

/-- The backoff configured on report_event (src/edr_agent/agent.py line 29):
wait_exponential(multiplier=1, min=2, max=10). -/
def backoffDelay (n : Nat) : Nat :=
  wait_exponential 1 2 10 n

/-- Result of a tenacity-driven run: success at some attempt, an exception
that tenacity does not retry propagating from some attempt, or retry
exhaustion — tenacity's RetryError, the spec's DeliveryFailed — recording the
number of the last attempt made and its exception (the last underlying
cause). -/
inductive RunResult (α : Type) where
  | ok (attempts : Nat) (v : α)
  | raised (attempts : Nat) (e : PyExn)
  | retryExhausted (attempts : Nat) (last : PyExn)
deriving DecidableEq, Repr

/-- Number of attempts a run made. -/
def RunResult.attemptsMade : RunResult α → Nat
  | .ok n _ => n
  | .raised n _ => n
  | .retryExhausted n _ => n

/-- Constructor tag of a run result (0 success, 1 propagated exception,
2 retry exhaustion). -/
def RunResult.kind : RunResult α → Nat
  | .ok _ _ => 0
  | .raised _ _ => 1
  | .retryExhausted _ _ => 2

/-- Model of tenacity's retry driver (BaseRetrying.iter, tenacity/__init__.py)
as configured on report_event: attempts are numbered from 1; an attempt
raising an Exception is retryable (the default retry_if_exception_type
condition), an attempt raising a BaseException that is not an Exception
propagates; after a retryable failure at attempt n the driver stops once
n ≥ stopAfter, raising RetryError with that last attempt, and otherwise
sleeps wait(n) and runs attempt n+1. Returns the result and the list of
sleeps performed; fuel bounds the recursion and is never exhausted when it
starts at stopAfter. -/
def tenacityGo (attempt : Nat → Except PyExn α) (wait : Nat → Nat) (stopAfter : Nat) :
    Nat → Nat → RunResult α × List Nat
  | n, fuel =>
    match attempt n with
    | .ok v => (.ok n v, [])
    | .error e =>
      if e.isException then
        if stopAfter ≤ n then (.retryExhausted n e, [])
        else
          match fuel with
          | 0 => (.retryExhausted n e, [])
          | fuel' + 1 =>
            let p := tenacityGo attempt wait stopAfter (n + 1) fuel'
            (p.1, wait n :: p.2)
      else (.raised n e, [])

/-- A full tenacity run starting at attempt 1. -/
def tenacityRun (attempt : Nat → Except PyExn α) (wait : Nat → Nat)
    (stopAfter : Nat) : RunResult α × List Nat :=
  tenacityGo attempt wait stopAfter 1 stopAfter

/-- The attempt executed at retry number n of a report_event call: the body
re-runs with the clock reading of that attempt and that attempt's transport
behavior. -/
def attemptOf (event_type : String) (clock : Nat → String)
    (transport : Nat → EventData → HttpOutcome) (n : Nat) :
    EventData × Except PyExn String :=
  report_attempt event_type (clock n) (transport n)

/-- Model of EventReporterService.report_event (src/edr_agent/agent.py lines
29-46): the tenacity decorator retry(wait=wait_exponential(multiplier=1,
min=2, max=10), stop=stop_after_attempt(5)) driving the attempt body; the
clock is sampled inside the body, so attempt n reads clock n. -/
def report_event (event_type : String) (clock : Nat → String)
    (transport : Nat → EventData → HttpOutcome) : RunResult String × List Nat :=
  tenacityRun (fun n => (attemptOf event_type clock transport n).2) backoffDelay 5

/-- Agent-side pydantic Event model (src/edr_agent/agent.py lines 16-19):
the validated body of a request to the agent's HTTP surface. -/
structure AgentEvent where
  event_type : String
  timestamp : DateTime
deriving DecidableEq, Repr

/-- Model of the agent's POST /report route (src/edr_agent/agent.py lines
84-87): it calls report_event with event.event_type only; the submitted
timestamp is dropped. -/
def report_endpoint (event : AgentEvent) (clock : Nat → String)
    (transport : Nat → EventData → HttpOutcome) : RunResult String × List Nat :=
  report_event event.event_type clock transport

/-! ## Agent: monitor loop
(src/edr_agent/agent.py lines 50-64) -/

/-- What one monitor iteration observes from its report_event call: a
returned acknowledgement or a raised exception. -/
inductive ReportOutcome where
  | ok (ack : String)
  | exn (e : PyExn)
deriving DecidableEq, Repr

/-- The outcome a monitor iteration sees from a report_event run: a returned
value, a propagated exception, or tenacity's RetryError wrapping the last
attempt on exhaustion. -/
def runToOutcome : RunResult String × List Nat → ReportOutcome
  | (.ok _ v, _) => .ok v
  | (.raised _ e, _) => .exn e
  | (.retryExhausted _ last, _) => .exn (.retryError last)

/-- The record of one executed monitor iteration over a virtual clock:
its index, the time its report attempt started and the time it ended. -/
structure IterRecord where
  idx : Nat
  startTime : Nat
  endTime : Nat
deriving DecidableEq, Repr

/-- The default reporting interval of EventMonitor
(src/edr_agent/agent.py line 52: interval: int = 10). -/
def monitorDefaultInterval : Nat := 10

/-- Model of EventMonitor.monitor (src/edr_agent/agent.py lines 56-64) over a
virtual clock: `while True`, each iteration runs the report attempt inside
`try`, `except Exception` catches and logs any raised Exception, then the
loop sleeps `interval`. Iteration i starting at time t ends its attempt at
t + dur i; the next iteration starts at end + interval. A raised value that
is not a Python Exception (task cancellation) escapes the except clause and
terminates the loop, returned as the second component. Fuel bounds the
unbounded loop to its first `fuel` iterations. -/
def monitorRun (interval : Nat) (outcomes : Nat → ReportOutcome)
    (dur : Nat → Nat) : Nat → Nat → Nat → List IterRecord × Option PyExn
  | _, _, 0 => ([], none)
  | i, t, fuel + 1 =>
    match outcomes i with
    | .ok _ =>
      let p := monitorRun interval outcomes dur (i + 1) (t + dur i + interval) fuel
      (⟨i, t, t + dur i⟩ :: p.1, p.2)
    | .exn e =>
      if e.isException then
        let p := monitorRun interval outcomes dur (i + 1) (t + dur i + interval) fuel
        (⟨i, t, t + dur i⟩ :: p.1, p.2)
      else ([⟨i, t, t + dur i⟩], some e)

/-! ## Server: session lifecycle as statements with try/finally
(src/edr_server/app.py lines 27-32 and 64-69) -/

/-- Observable operations on the per-request database session. -/
inductive SessionEvent where
  | acquire
  | add
  | commit
  | refresh
  | close
deriving DecidableEq, Repr

/-- A fragment of Python with exception flow, enough to express the
request-scoped session discipline: primitive session operations, a raise,
sequencing, and try/finally. -/
inductive Stmt where
  | op (e : SessionEvent)
  | raiseErr (msg : String)
  | seq (a b : Stmt)
  | tryFin (body fin : Stmt)

/-- Execution of a statement: the trace of session operations performed and
the uncaught exception, if any. A seq stops at the first raise; tryFin always
runs the finalizer after the body, and the body's exception (if the finalizer
itself does not raise) still propagates afterwards. -/
def Stmt.exec : Stmt → List SessionEvent × Option String
  | .op e => ([e], none)
  | .raiseErr m => ([], some m)
  | .seq a b =>
    match a.exec with
    | (tr, some m) => (tr, some m)
    | (tr, none) =>
      let p := b.exec
      (tr ++ p.1, p.2)
  | .tryFin body fin =>
    let pb := body.exec
    let pf := fin.exec
    (pb.1 ++ pf.1,
      match pf.2 with
      | some m => some m
      | none => pb.2)

/-- Model of Database.get_session (src/edr_server/app.py lines 27-32) wrapped
around a request body: create the session (db = SessionLocal()), yield it to
the body, and close it in a `finally` clause, so the close — which for a
SQLAlchemy Session also rolls back any transaction left uncommitted —
runs on every exit path of the body. -/
def get_session_stmt (body : Stmt) : Stmt :=
  .seq (.op .acquire) (.tryFin body (.op .close))

/-- Model of EventRepository.add_event (src/edr_server/app.py lines 64-69) as
session operations: add, then commit — which raises when the storage write
fails, there being no except clause in add_event — then refresh. -/
def add_event_stmt (commitFails : Bool) : Stmt :=
  .seq (.op .add)
    (.seq (if commitFails then .raiseErr "commit failed" else .op .commit)
      (.op .refresh))

/-- Whether an attempt outcome is a success. -/
def exceptIsOk : Except PyExn α → Bool
  | .ok _ => true
  | .error _ => false

/-- The progression property the spec claims of the backoff delays: each
delay strictly greater than its predecessor unless both equal the cap. -/
def strictlyIncreasingUnlessCap (cap : Nat) : List Nat → Bool
  | a :: b :: rest =>
    (decide (a < b) || (decide (a = cap) && decide (b = cap)))
      && strictlyIncreasingUnlessCap cap (b :: rest)
  | _ => true

/-- Whether consecutive delays never decrease. -/
def delaysNonDecreasing : List Nat → Bool
  | a :: b :: rest => decide (a ≤ b) && delaysNonDecreasing (b :: rest)
  | _ => true

/-! ## Helper lemmas -/

/-- Every exception an attempt of report_event can raise subclasses Python's
Exception: transport errors are re-raised as HTTPException and non-2xx
responses raise HTTPStatusError, both Exceptions. -/
theorem report_attempt_error_isException (et now : String)
    (tr : EventData → HttpOutcome) (e : PyExn)
    (h : (report_attempt et now tr).2 = .error e) : e.isException = true := by
  simp only [report_attempt] at h
  cases htr : tr ⟨et, now⟩ with
  | transportError m =>
    rw [htr] at h
    injection h with h'
    rw [← h']
    rfl
  | response s b =>
    rw [htr] at h
    dsimp only at h
    by_cases hs : 200 ≤ s ∧ s < 300
    · rw [if_pos hs] at h
      simp at h
    · rw [if_neg hs] at h
      injection h with h'
      rw [← h']
      rfl

/-- When every attempt in 1..s fails with a retryable exception, the driver
makes exactly the attempts 1..s, ends with retry exhaustion carrying attempt
s's exception, and sleeps wait(n) for n = start..s-1. -/
theorem tenacityGo_all_fail {α : Type} (a : Nat → Except PyExn α) (w : Nat → Nat)
    (s : Nat) (e : Nat → PyExn)
    (hf : ∀ k, 1 ≤ k → k ≤ s → a k = .error (e k))
    (hx : ∀ k, 1 ≤ k → k ≤ s → (e k).isException = true) :
    ∀ fuel n, 1 ≤ n → n ≤ s → s ≤ n + fuel →
      (tenacityGo a w s n fuel).1 = .retryExhausted s (e s)
      ∧ (tenacityGo a w s n fuel).2 = (List.range' n (s - n)).map w := by
  intro fuel
  induction fuel with
  | zero =>
    intro n h1 hns hsn
    have hn : n = s := Nat.le_antisymm hns (by simpa using hsn)
    subst hn
    rw [tenacityGo, hf n h1 (Nat.le_refl n)]
    simp [hx n h1 (Nat.le_refl n), Nat.sub_self]
  | succ fuel ih =>
    intro n h1 hns hsn
    rcases Nat.lt_or_ge n s with hlt | hge
    · have hnot : ¬ s ≤ n := by omega
      have hrec := ih (n + 1) (by omega) hlt (by omega)
      rw [tenacityGo, hf n h1 hns]
      simp only [hx n h1 hns, if_true, if_neg hnot]
      refine ⟨hrec.1, ?_⟩
      show w n :: (tenacityGo a w s (n + 1) fuel).2 = _
      rw [hrec.2]
      have hsn' : s - n = (s - (n + 1)) + 1 := by omega
      rw [hsn', List.range'_succ]
      rfl
    · have hn : n = s := Nat.le_antisymm hns hge
      subst hn
      rw [tenacityGo, hf n h1 (Nat.le_refl n)]
      simp [hx n h1 (Nat.le_refl n), Nat.sub_self]

/-- The driver never lets an exception escape an attempt when every attempt
exception is retryable. -/
theorem tenacityGo_no_raise {α : Type} (a : Nat → Except PyExn α) (w : Nat → Nat)
    (s : Nat) (ha : ∀ n x, a n = .error x → x.isException = true) :
    ∀ fuel n k e, (tenacityGo a w s n fuel).1 ≠ .raised k e := by
  intro fuel
  induction fuel with
  | zero =>
    intro n k e
    rw [tenacityGo]
    cases hn : a n with
    | ok v => simp
    | error x => simp [ha n x hn]
  | succ fuel ih =>
    intro n k e
    rw [tenacityGo]
    cases hn : a n with
    | ok v => simp
    | error x =>
      simp only [ha n x hn, if_true]
      by_cases hs : s ≤ n
      · simp [hs]
      · simpa [hs] using ih (n + 1) k e

/-- The driver consults only attempts up to stopAfter: two attempt streams
that agree on attempt numbers ≤ stopAfter produce identical runs. -/
theorem tenacityGo_congr {α : Type} (a b : Nat → Except PyExn α) (w : Nat → Nat)
    (s : Nat) :
    ∀ fuel n, n ≤ s → (∀ k, n ≤ k → k ≤ s → a k = b k) →
      tenacityGo a w s n fuel = tenacityGo b w s n fuel := by
  intro fuel
  induction fuel with
  | zero =>
    intro n hns h
    rw [tenacityGo, tenacityGo, h n (Nat.le_refl n) hns]
  | succ fuel ih =>
    intro n hns h
    rw [tenacityGo, tenacityGo, h n (Nat.le_refl n) hns]
    cases hb : b n with
    | ok v => rfl
    | error x =>
      by_cases hx : x.isException
      · by_cases hs : s ≤ n
        · simp [hx, hs]
        · have := ih (n + 1) (by omega) (fun k hk1 hk2 => h k (by omega) hk2)
          simp [hx, hs, this]
      · simp [hx]

/-- Only the success/failure pattern of the attempts determines the shape of
a run — which attempt it ends at, whether it succeeded, raised or exhausted,
and the backoff sleeps performed; the particular exception raised by a failed
attempt never influences any of these, provided all attempt exceptions are
retryable. -/
theorem tenacityGo_pattern {α : Type} (a b : Nat → Except PyExn α) (w : Nat → Nat)
    (s : Nat)
    (ha : ∀ n x, a n = .error x → x.isException = true)
    (hb : ∀ n x, b n = .error x → x.isException = true)
    (hsame : ∀ n, exceptIsOk (a n) = exceptIsOk (b n)) :
    ∀ fuel n,
      (tenacityGo a w s n fuel).1.attemptsMade
          = (tenacityGo b w s n fuel).1.attemptsMade
      ∧ (tenacityGo a w s n fuel).1.kind = (tenacityGo b w s n fuel).1.kind
      ∧ (tenacityGo a w s n fuel).2 = (tenacityGo b w s n fuel).2 := by
  intro fuel
  induction fuel with
  | zero =>
    intro n
    rw [tenacityGo, tenacityGo]
    cases han : a n with
    | ok v =>
      cases hbn : b n with
      | ok v' => simp [RunResult.attemptsMade, RunResult.kind]
      | error x' =>
        have := hsame n
        rw [han, hbn] at this
        simp [exceptIsOk] at this
    | error x =>
      cases hbn : b n with
      | ok v' =>
        have := hsame n
        rw [han, hbn] at this
        simp [exceptIsOk] at this
      | error x' =>
        simp [ha n x han, hb n x' hbn, RunResult.attemptsMade, RunResult.kind]
  | succ fuel ih =>
    intro n
    rw [tenacityGo, tenacityGo]
    cases han : a n with
    | ok v =>
      cases hbn : b n with
      | ok v' => simp [RunResult.attemptsMade, RunResult.kind]
      | error x' =>
        have := hsame n
        rw [han, hbn] at this
        simp [exceptIsOk] at this
    | error x =>
      cases hbn : b n with
      | ok v' =>
        have := hsame n
        rw [han, hbn] at this
        simp [exceptIsOk] at this
      | error x' =>
        by_cases hs : s ≤ n
        · simp [ha n x han, hb n x' hbn, hs, RunResult.attemptsMade, RunResult.kind]
        · have hrec := ih (n + 1)
          simp [ha n x han, hb n x' hbn, hs, hrec.1, hrec.2.1, hrec.2.2]

/-- When every exception an iteration's report raises is a Python Exception,
the monitor loop executes every one of its first `fuel` iterations and is
never terminated by a failure. -/
theorem monitorRun_total (interval : Nat) (outs : Nat → ReportOutcome)
    (dur : Nat → Nat) (h : ∀ i e, outs i = .exn e → e.isException = true) :
    ∀ fuel i t, ((monitorRun interval outs dur i t fuel).1.length = fuel)
      ∧ (monitorRun interval outs dur i t fuel).2 = none := by
  intro fuel
  induction fuel with
  | zero => intro i t; exact ⟨rfl, rfl⟩
  | succ fuel ih =>
    intro i t
    rw [monitorRun]
    cases ho : outs i with
    | ok a => simp [(ih (i + 1) (t + dur i + interval)).1,
        (ih (i + 1) (t + dur i + interval)).2]
    | exn e =>
      simp [h i e ho, (ih (i + 1) (t + dur i + interval)).1,
        (ih (i + 1) (t + dur i + interval)).2]

/-- A nonempty monitor run's first record is the iteration that starts at the
clock value the run was entered with. -/
theorem monitorRun_head (interval : Nat) (outs : Nat → ReportOutcome)
    (dur : Nat → Nat) :
    ∀ fuel i t, 0 < fuel →
      (monitorRun interval outs dur i t fuel).1.head? = some ⟨i, t, t + dur i⟩ := by
  intro fuel i t hf
  match fuel, hf with
  | fuel + 1, _ =>
    rw [monitorRun]
    cases ho : outs i with
    | ok a => rfl
    | exn e =>
      by_cases hx : e.isException
      · simp [hx]
      · simp [hx]

/-- Consecutive iteration records of a monitor run are separated by exactly
the sleep interval: the next iteration starts at the previous attempt's end
plus the interval, and in particular never before the previous attempt has
completed. -/
theorem monitorRun_chain (interval : Nat) (outs : Nat → ReportOutcome)
    (dur : Nat → Nat) :
    ∀ fuel i t, List.Chain'
      (fun r r' : IterRecord =>
        r'.startTime = r.endTime + interval ∧ r.endTime ≤ r'.startTime)
      (monitorRun interval outs dur i t fuel).1 := by
  intro fuel
  induction fuel with
  | zero => intro i t; exact List.chain'_nil
  | succ fuel ih =>
    intro i t
    rw [monitorRun]
    cases ho : outs i with
    | ok a =>
      refine List.chain'_cons'.mpr ⟨?_, ih (i + 1) (t + dur i + interval)⟩
      intro y hy
      rcases Nat.eq_zero_or_pos fuel with hf | hf
      · subst hf
        simp [monitorRun] at hy
      · rw [monitorRun_head interval outs dur fuel (i + 1) (t + dur i + interval) hf]
          at hy
        cases hy
        exact ⟨rfl, Nat.le_add_right _ _⟩
    | exn e =>
      by_cases hx : e.isException
      · simp only [hx, if_true]
        refine List.chain'_cons'.mpr ⟨?_, ih (i + 1) (t + dur i + interval)⟩
        intro y hy
        rcases Nat.eq_zero_or_pos fuel with hf | hf
        · subst hf
          simp [monitorRun] at hy
        · rw [monitorRun_head interval outs dur fuel (i + 1) (t + dur i + interval) hf]
            at hy
          cases hy
          exact ⟨rfl, Nat.le_add_right _ _⟩
      · simp only [hx]
        exact List.chain'_singleton _

/-- Running a body inside get_session always acquires the session first,
closes it last, and propagates the body's outcome unchanged. -/
theorem get_session_exec (body : Stmt) :
    (get_session_stmt body).exec
      = (SessionEvent.acquire :: (body.exec.1 ++ [SessionEvent.close]),
         body.exec.2) := by
  rw [get_session_stmt]
  cases hb : body.exec with
  | mk tr r =>
    cases r with
    | none => simp [Stmt.exec, hb]
    | some m => simp [Stmt.exec, hb]

/-- Every exception escaping a full report_event run toward the monitor is a
Python Exception: attempts raise only HTTPException or HTTPStatusError, so the
run can only succeed or end in tenacity's RetryError. -/
theorem report_outcome_isException (et : String) (clock : Nat → String)
    (tr : Nat → EventData → HttpOutcome) (e : PyExn)
    (h : runToOutcome (report_event et clock tr) = .exn e) : e.isException = true := by
  have ha : ∀ n x, (fun k => (attemptOf et clock tr k).2) n = .error x →
      x.isException = true := fun n x hx =>
    report_attempt_error_isException et (clock n) (tr n) x hx
  rcases hr : report_event et clock tr with ⟨r, ds⟩
  rw [hr] at h
  cases r with
  | ok k v => simp [runToOutcome] at h
  | raised k e' =>
    exact absurd (show (report_event et clock tr).1 = .raised k e' by rw [hr])
      (tenacityGo_no_raise (fun n => (attemptOf et clock tr n).2) backoffDelay 5 ha 5 1 k e')
  | retryExhausted k last =>
    simp [runToOutcome] at h
    rw [← h]
    rfl

/-! ## Claim theorems -/

/-- Claim C1: under sustained delivery failure — every attempt of the
report_event call raises — the Reporter makes exactly 5 delivery attempts,
then fails with tenacity's RetryError (the spec's DeliveryFailed) carrying
the exception of the 5th and last attempt; and it never makes a 6th attempt:
the whole run is unchanged by any difference in clock or transport behavior
beyond attempt 5. -/
theorem claim1_report_event_five_attempts (et : String) (clock : Nat → String)
    (tr : Nat → EventData → HttpOutcome) (e : Nat → PyExn)
    (hfail : ∀ n, 1 ≤ n → n ≤ 5 → (attemptOf et clock tr n).2 = .error (e n)) :
    (report_event et clock tr).1 = .retryExhausted 5 (e 5)
    ∧ (∀ (clock' : Nat → String) (tr' : Nat → EventData → HttpOutcome),
        (∀ n, 1 ≤ n → n ≤ 5 → attemptOf et clock tr n = attemptOf et clock' tr' n) →
        report_event et clock tr = report_event et clock' tr') := by
  have hx : ∀ k, 1 ≤ k → k ≤ 5 → (e k).isException = true := fun k h1 h5 =>
    report_attempt_error_isException et (clock k) (tr k) (e k) (hfail k h1 h5)
  constructor
  · exact (tenacityGo_all_fail (fun n => (attemptOf et clock tr n).2) backoffDelay 5 e
      hfail hx 5 1 (by omega) (by omega) (by omega)).1
  · intro clock' tr' hagree
    exact tenacityGo_congr (fun n => (attemptOf et clock tr n).2)
      (fun n => (attemptOf et clock' tr' n).2) backoffDelay 5 5 1 (by omega)
      (fun k hk1 hk5 => by
        show (attemptOf et clock tr k).2 = (attemptOf et clock' tr' k).2
        rw [hagree k hk1 hk5])

/-- Witness for C1: with the collector unreachable on every attempt, the call
ends after attempt 5 in retry exhaustion carrying the last connection error. -/
theorem claim1_witness :
    (report_event "logout" (fun _ => "2024-01-01T00:00:00")
        (fun _ _ => .transportError "refused")).1
      = .retryExhausted 5 (.httpException 500 "Failed to connect to server: refused") :=
  (claim1_report_event_five_attempts "logout" (fun _ => "2024-01-01T00:00:00")
    (fun _ _ => .transportError "refused")
    (fun _ => .httpException 500 ("Failed to connect to server: " ++ "refused"))
    (fun _ _ _ => rfl)).1

/-- Claim C2, counterexample: a valid payload is persisted exactly once, but
the response body is the constant message "Event recorded" — two stores
assigning different identifiers (0 and 7) to the new record receive the
identical response, so the response carries no server-assigned identifier. -/
theorem claim2_counterexample :
    ((ingest ⟨0, []⟩ ⟨some "login", some "2024-01-01T00:00:00Z"⟩).2.events.map
        StoredEvent.id = [0])
    ∧ ((ingest ⟨7, []⟩ ⟨some "login", some "2024-01-01T00:00:00Z"⟩).2.events.map
        StoredEvent.id = [7])
    ∧ (ingest ⟨0, []⟩ ⟨some "login", some "2024-01-01T00:00:00Z"⟩).1
        = (ingest ⟨7, []⟩ ⟨some "login", some "2024-01-01T00:00:00Z"⟩).1
    ∧ (ingest ⟨0, []⟩ ⟨some "login", some "2024-01-01T00:00:00Z"⟩).1
        = .created "Event recorded" :=
  ⟨rfl, rfl, rfl, rfl⟩

/-- Claim C2 as amended: for every valid payload (event_type present and
timestamp parsable) ingest persists exactly one new record, to which the
store assigns the next identifier, and answers 201 with the fixed non-empty
acknowledgement message "Event recorded"; the identifier itself is not part
of the response. -/
theorem claim2_amended_ingest (st : Store) (p : RawPayload) (ev : EventCreate)
    (hv : validatePayload p = some ev) :
    (ingest st p).2.events = st.events ++ [⟨st.nextId, ev.event_type, ev.timestamp⟩]
    ∧ (ingest st p).2.events.length = st.events.length + 1
    ∧ (ingest st p).1 = .created "Event recorded"
    ∧ "Event recorded" ≠ "" := by
  unfold ingest
  rw [hv]
  exact ⟨rfl, by simp [add_event], rfl, by decide⟩

/-- Witness for the amended C2 at a concrete valid payload. -/
theorem claim2_witness :
    (ingest ⟨5, []⟩ ⟨some "logout", some "2025-12-31T23:59:59Z"⟩).2.events.length = 0 + 1
    ∧ (ingest ⟨5, []⟩ ⟨some "logout", some "2025-12-31T23:59:59Z"⟩).1
        = .created "Event recorded" :=
  ⟨(claim2_amended_ingest ⟨5, []⟩ ⟨some "logout", some "2025-12-31T23:59:59Z"⟩
      ⟨"logout", ⟨2025, 12, 31, 23, 59, 59⟩⟩ rfl).2.1,
   (claim2_amended_ingest ⟨5, []⟩ ⟨some "logout", some "2025-12-31T23:59:59Z"⟩
      ⟨"logout", ⟨2025, 12, 31, 23, 59, 59⟩⟩ rfl).2.2.1⟩

/-- Claim C3, counterexample: the payload whose event_type is present but
empty, with a valid timestamp, is not rejected — the plain `str` schema field
accepts the empty string — and ingest creates a record with an empty
event_type instead of signalling a client error. -/
theorem claim3_counterexample :
    (ingest ⟨0, []⟩ ⟨some "", some "2024-01-01T00:00:00Z"⟩).1 = .created "Event recorded"
    ∧ (ingest ⟨0, []⟩ ⟨some "", some "2024-01-01T00:00:00Z"⟩).2.events.length = 1
    ∧ (ingest ⟨0, []⟩ ⟨some "", some "2024-01-01T00:00:00Z"⟩).2.events.map
        StoredEvent.event_type = [""] :=
  ⟨rfl, rfl, rfl⟩

/-- Claim C3 as amended: ingest rejects with a 422 client error, the call
never reaching the store, exactly when event_type is missing, the timestamp
is missing, or the timestamp text is unparsable; an event_type that is
present but empty is not rejected. -/
theorem claim3_amended_reject (st : Store) (p : RawPayload)
    (hbad : p.event_type = none ∨ p.timestamp = none
      ∨ ∃ ts, p.timestamp = some ts ∧ parseISO8601 ts = none) :
    (ingest st p).1 = .unprocessable ∧ (ingest st p).2 = st := by
  obtain ⟨pet, pts⟩ := p
  have hv : validatePayload ⟨pet, pts⟩ = none := by
    rcases hbad with h | h | ⟨ts, hts, hparse⟩
    · simp only at h
      subst h
      cases pts with
      | none => rfl
      | some t => rfl
    · simp only at h
      subst h
      cases pet with
      | none => rfl
      | some e => rfl
    · simp only at hts
      subst hts
      cases pet with
      | none => rfl
      | some e => simp [validatePayload, hparse]
  unfold ingest
  rw [hv]
  exact ⟨rfl, rfl⟩

/-- Witness for the amended C3 at a concrete unparsable timestamp. -/
theorem claim3_witness :
    (ingest ⟨3, []⟩ ⟨some "login", some "not-a-timestamp"⟩).1 = .unprocessable
    ∧ (ingest ⟨3, []⟩ ⟨some "login", some "not-a-timestamp"⟩).2 = ⟨3, []⟩ :=
  claim3_amended_reject ⟨3, []⟩ ⟨some "login", some "not-a-timestamp"⟩
    (.inr (.inr ⟨"not-a-timestamp", rfl, rfl⟩))

/-- Claim C4: the monitor loop composed with the Reporter survives every
finite sequence of delivery failures — whatever each iteration's transport
behavior and clock readings, including retry exhaustion inside report_event,
the loop catches each raised exception and still executes iteration N+1 after
its first N iterations, and no delivery failure terminates it. -/
theorem claim4_monitor_survives (interval : Nat) (et : String)
    (clocks : Nat → Nat → String) (trs : Nat → Nat → EventData → HttpOutcome)
    (dur : Nat → Nat) (N : Nat) :
    ((monitorRun interval
        (fun i => runToOutcome (report_event et (clocks i) (trs i)))
        dur 0 0 (N + 1)).1.length = N + 1)
    ∧ (monitorRun interval
        (fun i => runToOutcome (report_event et (clocks i) (trs i)))
        dur 0 0 (N + 1)).2 = none :=
  monitorRun_total interval _ dur
    (fun i e ho => report_outcome_isException et (clocks i) (trs i) e ho)
    (N + 1) 0 0

/-- Claim C5, counterexample: in the run of report_event with the collector
unreachable throughout, the backoff delays between the 5 attempts are
2, 2, 4, 8 — the first two are equal while below the cap of 10, so the delay
sequence is not strictly increasing in the claimed sense. -/
theorem claim5_counterexample :
    (report_event "logout" (fun _ => "t") (fun _ _ => .transportError "x")).2
      = [2, 2, 4, 8]
    ∧ strictlyIncreasingUnlessCap 10
        (report_event "logout" (fun _ => "t") (fun _ _ => .transportError "x")).2
      = false :=
  ⟨rfl, rfl⟩

/-- Claim C5 as amended: in every run of report_event under sustained
failure the backoff delays between successive attempts are exactly
2, 2, 4, 8 — nondecreasing and capped at 10, but with the first two delays
equal at the minimum floor of 2 rather than strictly increasing. -/
theorem claim5_amended_backoff (et : String) (clock : Nat → String)
    (tr : Nat → EventData → HttpOutcome) (e : Nat → PyExn)
    (hfail : ∀ n, 1 ≤ n → n ≤ 5 → (attemptOf et clock tr n).2 = .error (e n)) :
    (report_event et clock tr).2 = [2, 2, 4, 8]
    ∧ delaysNonDecreasing (report_event et clock tr).2 = true
    ∧ ∀ d ∈ (report_event et clock tr).2, d ≤ 10 := by
  have hx : ∀ k, 1 ≤ k → k ≤ 5 → (e k).isException = true := fun k h1 h5 =>
    report_attempt_error_isException et (clock k) (tr k) (e k) (hfail k h1 h5)
  have h2 : (report_event et clock tr).2 = (List.range' 1 (5 - 1)).map backoffDelay :=
    (tenacityGo_all_fail (fun n => (attemptOf et clock tr n).2) backoffDelay 5 e
      hfail hx 5 1 (by omega) (by omega) (by omega)).2
  have h3 : (report_event et clock tr).2 = [2, 2, 4, 8] := h2.trans rfl
  refine ⟨h3, ?_, ?_⟩
  · rw [h3]
    rfl
  · rw [h3]
    decide

/-- Witness for the amended C5 at a concrete sustained failure. -/
theorem claim5_witness :
    (report_event "login" (fun _ => "t2") (fun _ _ => .transportError "refused")).2
      = [2, 2, 4, 8] :=
  (claim5_amended_backoff "login" (fun _ => "t2")
    (fun _ _ => .transportError "refused")
    (fun _ => .httpException 500 ("Failed to connect to server: " ++ "refused"))
    (fun _ _ _ => rfl)).1

/-- Claim C6: report_event classifies every unsuccessful attempt outcome
uniformly as retryable — an attempt succeeds exactly when the POST yields a
2xx response; every exception an attempt raises (transport failures rethrown
as HTTPException and every non-2xx status raising HTTPStatusError) satisfies
tenacity's retry condition isinstance(e, Exception); and two report_event
calls whose attempts fail at the same attempt numbers behave identically —
same number of attempts, same result kind, same backoff sleeps — regardless
of which class of failure each attempt had. -/
theorem claim6_uniform_retryability (et : String) (clock clock' : Nat → String)
    (tr tr' : Nat → EventData → HttpOutcome)
    (hsame : ∀ n, exceptIsOk (attemptOf et clock tr n).2
        = exceptIsOk (attemptOf et clock' tr' n).2) :
    (∀ n, exceptIsOk (attemptOf et clock tr n).2 = true ↔
        ∃ s b, tr n ⟨et, clock n⟩ = .response s b ∧ 200 ≤ s ∧ s < 300)
    ∧ (∀ n x, (attemptOf et clock tr n).2 = .error x → x.isException = true)
    ∧ (report_event et clock tr).1.attemptsMade
        = (report_event et clock' tr').1.attemptsMade
    ∧ (report_event et clock tr).1.kind = (report_event et clock' tr').1.kind
    ∧ (report_event et clock tr).2 = (report_event et clock' tr').2 := by
  have ha : ∀ n x, (fun k => (attemptOf et clock tr k).2) n = .error x →
      x.isException = true := fun n x hx =>
    report_attempt_error_isException et (clock n) (tr n) x hx
  have hb : ∀ n x, (fun k => (attemptOf et clock' tr' k).2) n = .error x →
      x.isException = true := fun n x hx =>
    report_attempt_error_isException et (clock' n) (tr' n) x hx
  have hpat := tenacityGo_pattern (fun n => (attemptOf et clock tr n).2)
    (fun n => (attemptOf et clock' tr' n).2) backoffDelay 5 ha hb hsame 5 1
  refine ⟨?_, fun n x hx => ha n x hx, hpat.1, hpat.2.1, hpat.2.2⟩
  intro n
  show exceptIsOk (report_attempt et (clock n) (tr n)).2 = true ↔ _
  simp only [report_attempt]
  cases htr : tr n ⟨et, clock n⟩ with
  | transportError m => simp [exceptIsOk]
  | response s b =>
    by_cases hs : 200 ≤ s ∧ s < 300
    · simp [hs, exceptIsOk]
    · simp [hs, exceptIsOk]

/-- Witness for C6: a run failing throughout with connection errors makes the
same number of attempts as a run failing throughout with 503 responses. -/
theorem claim6_witness :
    (report_event "login" (fun _ => "t") (fun _ _ => .transportError "refused")).1.attemptsMade
      = (report_event "login" (fun _ => "t")
          (fun _ _ => .response 503 "unavailable")).1.attemptsMade :=
  (claim6_uniform_retryability "login" (fun _ => "t") (fun _ => "t")
    (fun _ _ => .transportError "refused") (fun _ _ => .response 503 "unavailable")
    (fun _ => rfl)).2.2.1

/-- Claim C7: within one monitor loop, iterations are strictly sequential —
each consecutive pair of iteration records has the next attempt starting no
earlier than the previous attempt's end — and the next start is exactly the
previous end plus the configured fixed interval, whose default is 10
time-units, measured from the end of the attempt. -/
theorem claim7_sequential_fixed_interval (interval : Nat)
    (outs : Nat → ReportOutcome) (dur : Nat → Nat) (fuel i t : Nat) :
    List.Chain'
      (fun r r' : IterRecord =>
        r'.startTime = r.endTime + interval ∧ r.endTime ≤ r'.startTime)
      (monitorRun interval outs dur i t fuel).1
    ∧ monitorDefaultInterval = 10 :=
  ⟨monitorRun_chain interval outs dur fuel i t, rfl⟩

/-- Claim C8: for every request body run under get_session — the successful
commit, the persistence failure raising at commit, and any other body
behavior whatsoever — the trace acquires the session first, closes it last,
and the body's outcome still propagates; in particular both the successful
and the failing add_event request close the session, so no session outlives
its request. -/
theorem claim8_session_released (body : Stmt) :
    (get_session_stmt body).exec.1.head? = some SessionEvent.acquire
    ∧ (get_session_stmt body).exec.1.getLast? = some SessionEvent.close
    ∧ (get_session_stmt body).exec.2 = body.exec.2
    ∧ ∀ c : Bool, (get_session_stmt (add_event_stmt c)).exec.1.getLast?
        = some SessionEvent.close := by
  refine ⟨?_, ?_, ?_, ?_⟩
  · rw [get_session_exec]
    rfl
  · rw [get_session_exec]
    show (SessionEvent.acquire :: (body.exec.1 ++ [SessionEvent.close])).getLast? = _
    rw [← List.cons_append, List.getLast?_concat]
  · rw [get_session_exec]
  · intro c
    rw [get_session_exec]
    show (SessionEvent.acquire :: ((add_event_stmt c).exec.1 ++ [SessionEvent.close])).getLast? = _
    rw [← List.cons_append, List.getLast?_concat]

/-- Claim C9: each delivery attempt of one report_event call constructs a
fresh payload stamped with the clock reading sampled at that attempt, so two
attempts made at different clock readings carry different payloads. -/
theorem claim9_fresh_timestamp (et : String) (clock : Nat → String)
    (tr : Nat → EventData → HttpOutcome) (n m : Nat)
    (h : clock n ≠ clock m) :
    (attemptOf et clock tr n).1 = ⟨et, clock n⟩
    ∧ (attemptOf et clock tr n).1 ≠ (attemptOf et clock tr m).1 := by
  refine ⟨rfl, fun he => h ?_⟩
  exact congrArg EventData.timestamp (show (⟨et, clock n⟩ : EventData) = ⟨et, clock m⟩ from he)

/-- Witness for C9 at two attempts with distinct clock readings. -/
theorem claim9_witness :
    (attemptOf "login"
        (fun k => if k = 1 then "2024-01-01T00:00:01" else "2024-01-01T00:00:02")
        (fun _ _ => .transportError "x") 1).1
      ≠ (attemptOf "login"
        (fun k => if k = 1 then "2024-01-01T00:00:01" else "2024-01-01T00:00:02")
        (fun _ _ => .transportError "x") 2).1 :=
  (claim9_fresh_timestamp "login" _ _ 1 2 (by decide)).2

/-- Claim C10: the agent's POST /report endpoint forwards only the
event_type of the submitted body to the Reporter, which substitutes its own
current time — two requests that differ only in the timestamp field of the
body produce, under the same clock and transport, the identical run of
report_event, and every attempt constructs the identical payload. -/
theorem claim10_timestamp_noninterference (e1 e2 : AgentEvent)
    (clock : Nat → String) (tr : Nat → EventData → HttpOutcome)
    (h : e1.event_type = e2.event_type) :
    report_endpoint e1 clock tr = report_endpoint e2 clock tr
    ∧ ∀ n, (attemptOf e1.event_type clock tr n).1
        = (attemptOf e2.event_type clock tr n).1 := by
  constructor
  · unfold report_endpoint
    rw [h]
  · intro n
    rw [h]

/-- Witness for C10 at two requests equal except for their timestamps. -/
theorem claim10_witness :
    report_endpoint ⟨"login", ⟨2024, 1, 1, 0, 0, 0⟩⟩ (fun _ => "now")
        (fun _ _ => .response 201 "ack")
      = report_endpoint ⟨"login", ⟨2025, 6, 30, 12, 0, 0⟩⟩ (fun _ => "now")
        (fun _ _ => .response 201 "ack") :=
  (claim10_timestamp_noninterference ⟨"login", ⟨2024, 1, 1, 0, 0, 0⟩⟩
    ⟨"login", ⟨2025, 6, 30, 12, 0, 0⟩⟩ (fun _ => "now")
    (fun _ _ => .response 201 "ack") rfl).1

end ShieldEDR
